import Mathlib

/-!
Verification development for the Udemy Transcript Copier userscript
(`src/udemy-transcript-copier.user.js`).

The script is shallowly embedded: the DOM queries performed by the script
are modelled by a `Page` record whose fields hold the result of each query
(`none` when the selector matches nothing), JavaScript string concatenation
and `Array.join` are modelled by `++` and `joinSep`, the `try`/`catch`
around the metadata-header construction is modelled with `Except`, and the
Tampermonkey preference store is modelled as an optional key/value list
(the outcome of `JSON.parse` on an externally stored string).
-/

/-- Models JavaScript `String.prototype.trim` for the whitespace characters
that occur in this development (space, tab, newline, carriage return). -/
def jsWhitespace (c : Char) : Bool :=
  c == ' ' || c == '\t' || c == '\n' || c == '\r'

/-- Trim whitespace from both ends, as `.trim()` does in the script. -/
def jsTrim (s : String) : String :=
  String.mk (((s.data.dropWhile jsWhitespace).reverse.dropWhile jsWhitespace).reverse)

/-- Models JavaScript `Array.prototype.join(sep)` (used with `'\n'` and `', '`). -/
def joinSep (sep : String) : List String → String
  | [] => ""
  | [x] => x
  | x :: y :: xs => x ++ sep ++ joinSep sep (y :: xs)

/-- Insert a `,` after every three characters of a reversed digit list;
helper for `toLocaleString`. -/
def groupRev : List Char → List Char
  | a :: b :: c :: d :: rest => a :: b :: c :: ',' :: groupRev (d :: rest)
  | l => l

/-- Models `Number.prototype.toLocaleString()` on a non-negative integer
review count: decimal digits with `,` grouping every three digits. -/
def toLocaleString (n : Nat) : String :=
  String.mk ((groupRev (toString n).data.reverse).reverse)

/-- Render a rational to two decimal places, modelling `toFixed(2)` on the
numeric rating carried by the JSON blob. -/
def formatFixed2 (q : Rat) : String :=
  let m : Int := round (q * 100)
  let sign := if m < 0 then "-" else ""
  let n := m.natAbs
  let r := n % 100
  sign ++ toString (n / 100) ++ "." ++ (if r < 10 then "0" else "") ++ toString r

-- ### Settings (`DEFAULT_SETTINGS`, `loadSettings`, `saveSettings`)

/-- The fixed record of boolean preference flags (`DEFAULT_SETTINGS` keys). -/
structure Settings where
  includeCourseTitle : Bool
  includeCourseSubtitle : Bool
  includeSectionLecture : Bool
  includeInstructors : Bool
  includeRating : Bool
  includeLength : Bool
  includeLastUpdated : Bool
  includeCaptions : Bool
  includeLanguage : Bool
deriving DecidableEq

/-- `DEFAULT_SETTINGS` from the script: every flag defaults to `true`. -/
def DEFAULT_SETTINGS : Settings :=
  { includeCourseTitle := true
    includeCourseSubtitle := true
    includeSectionLecture := true
    includeInstructors := true
    includeRating := true
    includeLength := true
    includeLastUpdated := true
    includeCaptions := true
    includeLanguage := true }

/-- The key/value pairs written by `JSON.stringify(userSettings)`. -/
def settingsAssoc (s : Settings) : List (String × Bool) :=
  [("includeCourseTitle", s.includeCourseTitle),
   ("includeCourseSubtitle", s.includeCourseSubtitle),
   ("includeSectionLecture", s.includeSectionLecture),
   ("includeInstructors", s.includeInstructors),
   ("includeRating", s.includeRating),
   ("includeLength", s.includeLength),
   ("includeLastUpdated", s.includeLastUpdated),
   ("includeCaptions", s.includeCaptions),
   ("includeLanguage", s.includeLanguage)]

/-- JavaScript object-spread lookup: the last occurrence of `key` wins,
falling back to the default when the key is absent. -/
def lookupFlag (kvs : List (String × Bool)) (key : String) (dflt : Bool) : Bool :=
  kvs.foldl (fun acc kv => if kv.1 = key then kv.2 else acc) dflt

/-- `{ ...DEFAULT_SETTINGS, ...parsed }`: every field takes the stored value
when its key is present and the default otherwise. -/
def mergeSettings (dflt : Settings) (kvs : List (String × Bool)) : Settings :=
  { includeCourseTitle := lookupFlag kvs ("includeCourseTitle") dflt.includeCourseTitle
    includeCourseSubtitle := lookupFlag kvs ("includeCourseSubtitle") dflt.includeCourseSubtitle
    includeSectionLecture := lookupFlag kvs ("includeSectionLecture") dflt.includeSectionLecture
    includeInstructors := lookupFlag kvs ("includeInstructors") dflt.includeInstructors
    includeRating := lookupFlag kvs ("includeRating") dflt.includeRating
    includeLength := lookupFlag kvs ("includeLength") dflt.includeLength
    includeLastUpdated := lookupFlag kvs ("includeLastUpdated") dflt.includeLastUpdated
    includeCaptions := lookupFlag kvs ("includeCaptions") dflt.includeCaptions
    includeLanguage := lookupFlag kvs ("includeLanguage") dflt.includeLanguage }

/-- `saveSettings` persists `JSON.stringify(userSettings)`; the stored value
is modelled by the parse outcome of that string, which is the full
key/value list of the record. -/
def saveSettingsValue (s : Settings) : Except Unit (List (String × Bool)) :=
  Except.ok (settingsAssoc s)

/-- `loadSettings`: `GM_getValue(SETTINGS_KEY, JSON.stringify(DEFAULT_SETTINGS))`
followed by `JSON.parse` in a `try`/`catch` and a spread-merge with the
defaults.  `stored = none` models a completely absent persisted value (the
getter then returns the serialized defaults); `some (Except.error ())`
models a stored string that fails to parse (the catch path). -/
def loadSettings (stored : Option (Except Unit (List (String × Bool)))) : Settings :=
  match stored with
  | none => mergeSettings DEFAULT_SETTINGS (settingsAssoc DEFAULT_SETTINGS)
  | some (Except.ok kvs) => mergeSettings DEFAULT_SETTINGS kvs
  | some (Except.error _) => DEFAULT_SETTINGS

-- ### Course data from the JSON blob (`getCourseData`)

/-- One entry of `instructorInfo.instructors_info`. -/
structure Instructor where
  title : String
  job_title : String
deriving DecidableEq

/-- A JSON value stored in the `rating` field: either an actual number or
some non-numeric value (on which `.toFixed(2)` throws a `TypeError`). -/
inductive JsNum where
  | num (q : Rat)
  | other (s : String)
deriving DecidableEq

/-- JavaScript truthiness for the `rating` field: `0`, the empty string and
an absent value are falsy. -/
def jsNumTruthy : JsNum → Bool
  | JsNum.num q => q ≠ 0
  | JsNum.other s => s ≠ ""

/-- `rating.toFixed(2)`: formats a number, throws on a non-number. -/
def toFixed2 : JsNum → Except Unit String
  | JsNum.num q => Except.ok (formatFixed2 q)
  | JsNum.other _ => Except.error ()

/-- `courseData.courseLeadData` as read by the script. -/
structure CourseLeadData where
  rating : Option JsNum
  num_reviews : Option Nat
  content_info_short : Option String
  last_update_date : Option String
  captionedLanguages : Option (List String)
deriving DecidableEq

/-- `courseData.instructorInfo` as read by the script. -/
structure InstructorInfo where
  instructors_info : Option (List Instructor)
deriving DecidableEq

/-- The parsed `data-module-args` JSON blob, restricted to the fields the
script reads. -/
structure CourseData where
  instructorInfo : Option InstructorInfo
  courseLeadData : Option CourseLeadData
deriving DecidableEq

-- ### The live document, as seen through the script's queries

/-- A child node of the language caption element (`langEl.childNodes`):
`isTextNode` models `node.nodeType === Node.TEXT_NODE`. -/
structure ChildNode where
  isTextNode : Bool
  textContent : String
deriving DecidableEq

/-- `span.ud-accordion-panel-title > span` lookup result inside a section
panel. -/
structure SectionPanel where
  panelTitleSpan : Option String
deriving DecidableEq

/-- The `li[aria-current="true"]` element; `sectionPanel` is the result of
`closest('div[data-purpose*="section-panel-"]')`. -/
structure LectureItem where
  sectionPanel : Option SectionPanel
deriving DecidableEq

/-- An element inside the transcript panel, as relevant to
`querySelectorAll('span[data-purpose="cue-text"]')`. -/
structure CueElem where
  tag : String
  dataPurpose : Option String
  textContent : String
deriving DecidableEq

/-- The transcript panel (`div[data-purpose="transcript-panel"]`) with its
descendant elements in document order. -/
structure TranscriptPanel where
  elems : List CueElem
deriving DecidableEq

/-- The state of the page at the moment the copy button is clicked.  Each
field holds the result of one of the script's DOM queries (`none` when the
selector finds nothing).  `dataModuleArgs` is the `data-module-args`
attribute together with the outcome of `JSON.parse` on it: `none` when the
`.ud-app-loader[data-module-args]` element (or a non-empty attribute) is
missing, `some (Except.error ())` when the attribute is present but
unparsable, `some (Except.ok d)` when it parses to `d`. -/
structure Page where
  dataModuleArgs : Option (Except Unit CourseData)
  courseTitleEl : Option String
  courseSubtitleEl : Option String
  lectureTitleEl : Option String
  currentLectureItem : Option LectureItem
  langEl : Option (List ChildNode)
  transcriptPanel : Option TranscriptPanel

/-- `getCourseData`: returns the parsed blob, or `null` when the element is
missing or `JSON.parse` throws (the `try`/`catch` in the script). -/
def getCourseData (p : Page) : Option CourseData :=
  match p.dataModuleArgs with
  | none => none
  | some (Except.error _) => none
  | some (Except.ok d) => some d

/-- The nullable chain `currentLectureItem.closest(...)?.querySelector(...)`
producing the section title element. -/
def sectionTitleEl (p : Page) : Option String :=
  match p.currentLectureItem with
  | some item =>
    match item.sectionPanel with
    | some sp => sp.panelTitleSpan
    | none => none
  | none => none

/-- The `(sectionTitle, lectureTitle)` pair computed (identically) in both
the main and the fallback branch of `handleCopyClick`, with the
`'Unknown Section'` / `'Unknown Lecture'` defaults. -/
def sectionLectureTitles (p : Page) : String × String :=
  (match sectionTitleEl p with
   | some t => jsTrim t
   | none => "Unknown Section",
   match p.lectureTitleEl with
   | some t => jsTrim t
   | none => "Unknown Lecture")

/-- Text of the language caption element: text-node children, trimmed and
joined with the empty separator. -/
def langText (nodes : List ChildNode) : String :=
  String.join ((nodes.filter (fun n => n.isTextNode)).map (fun n => jsTrim n.textContent))

-- ### Header composition inside `handleCopyClick`

/-- Course title / subtitle lines (steps guarded by `includeCourseTitle`
and `includeCourseSubtitle`; each line appears only when its element is
found). -/
def titleSubLines (p : Page) (st : Settings) : List String :=
  (if st.includeCourseTitle then
     match p.courseTitleEl with
     | some t => ["# " ++ jsTrim t]
     | none => []
   else []) ++
  (if st.includeCourseSubtitle then
     match p.courseSubtitleEl with
     | some t => ["## *" ++ (jsTrim t ++ "*")]
     | none => []
   else [])

/-- `* **Instructors:** ...` line: guarded by the flag and by the truthiness
of `instructorInfo` and `instructors_info` (any array, even empty, is
truthy). -/
def instLines (st : Settings) (d : CourseData) : List String :=
  if st.includeInstructors then
    match d.instructorInfo with
    | some info =>
      match info.instructors_info with
      | some insts =>
        ["* **Instructors:** " ++
          joinSep (", ") (insts.map (fun i => i.title ++ " (" ++ i.job_title ++ ")"))]
      | none => []
    | none => []
  else []

/-- `leadData.rating ? leadData.rating.toFixed(2) : 'N/A'`. -/
def ratingStrE (lead : CourseLeadData) : Except Unit String :=
  match lead.rating with
  | some v => if jsNumTruthy v then toFixed2 v else Except.ok ("N/A")
  | none => Except.ok ("N/A")

/-- `leadData.num_reviews ? leadData.num_reviews.toLocaleString() : 'N/A'`. -/
def reviewsStr (lead : CourseLeadData) : String :=
  match lead.num_reviews with
  | some n => if n ≠ 0 then toLocaleString n else "N/A"
  | none => "N/A"

/-- The `* **Rating:** ...` line, pushed whenever `includeRating` is set and
`courseLeadData` exists; a missing rating or review count degrades to
`N/A`, a non-numeric rating throws out of the `try` block. -/
def ratingLineE (st : Settings) (lead : CourseLeadData) : Except Unit (List String) :=
  if st.includeRating then
    match ratingStrE lead with
    | Except.ok r =>
      Except.ok (["* **Rating:** " ++ (r ++ (" (" ++ (reviewsStr lead ++ " reviews)")))])
    | Except.error e => Except.error e
  else Except.ok []

/-- `* **Total Length:** ...` line (flag and truthy `content_info_short`). -/
def lenLines (st : Settings) (lead : CourseLeadData) : List String :=
  if st.includeLength then
    match lead.content_info_short with
    | some v => if v ≠ "" then ["* **Total Length:** " ++ v] else []
    | none => []
  else []

/-- `* **Last Updated:** ...` line (flag and truthy `last_update_date`). -/
def updLines (st : Settings) (lead : CourseLeadData) : List String :=
  if st.includeLastUpdated then
    match lead.last_update_date with
    | some v => if v ≠ "" then ["* **Last Updated:** " ++ v] else []
    | none => []
  else []

/-- `* **Captions:** ...` line (flag, present and non-empty
`captionedLanguages`). -/
def capLines (st : Settings) (lead : CourseLeadData) : List String :=
  if st.includeCaptions then
    match lead.captionedLanguages with
    | some ls => if ls.length > 0 then ["* **Captions:** " ++ joinSep (", ") ls] else []
    | none => []
  else []

/-- The stats block guarded by `if (courseData.courseLeadData)`. -/
def statLinesE (st : Settings) (lead : CourseLeadData) : Except Unit (List String) :=
  match ratingLineE st lead with
  | Except.ok ratB => Except.ok (ratB ++ lenLines st lead ++ updLines st lead ++ capLines st lead)
  | Except.error e => Except.error e

/-- `* **Language:** ...` line, from the DOM (flag, element found, and a
non-empty text after filtering to text nodes). -/
def langLines (p : Page) (st : Settings) : List String :=
  if st.includeLanguage then
    match p.langEl with
    | some nodes =>
      if langText nodes ≠ "" then ["* **Language:** " ++ langText nodes] else []
    | none => []
  else []

/-- `detailsLines` accumulated inside the `try` block: instructors, then the
`courseLeadData` stats, then the language line.  An exception raised while
formatting the rating propagates. -/
def detailsLinesE (p : Page) (st : Settings) (d : CourseData) : Except Unit (List String) :=
  match d.courseLeadData with
  | some lead =>
    match statLinesE st lead with
    | Except.ok statB => Except.ok (instLines st d ++ statB ++ langLines p st)
    | Except.error e => Except.error e
  | none => Except.ok (instLines st d ++ [] ++ langLines p st)

/-- The whole `try` block of `handleCopyClick` when the JSON blob parsed:
title/subtitle (followed by `---` when non-empty), the section/lecture
block with its `---`, the `**Course Details:**` block with its `---` when
any details line exists, and the `## Transcript\n` heading. -/
def buildHeaderMain (p : Page) (st : Settings) (d : CourseData) : Except Unit (List String) :=
  match detailsLinesE p st d with
  | Except.ok dls =>
    Except.ok
      ((if (titleSubLines p st).length > 0 then titleSubLines p st ++ ["---"]
        else titleSubLines p st) ++
       (if st.includeSectionLecture then
          ["**Section:** " ++ (sectionLectureTitles p).1,
           "**Lecture:** " ++ (sectionLectureTitles p).2, "---"]
        else []) ++
       (if dls.length > 0 then ("**Course Details:**") :: (dls ++ ["---"]) else []) ++
       ["## Transcript\n"])
  | Except.error e => Except.error e

/-- The fallback header used when `getCourseData` returns `null`: only the
section/lecture titles derived from visible text. -/
def fallbackHeader (p : Page) (st : Settings) : List String :=
  if st.includeSectionLecture then
    ["# " ++ (sectionLectureTitles p).1, "## " ++ ((sectionLectureTitles p).2 ++ "\n")]
  else []

/-- `headerLines` at the end of steps 1–3 of `handleCopyClick`: the main
header on a parsed blob, `[]` when the `try` block threw (the catch clears
the array), and the fallback header when the blob was absent/unparsable. -/
def headerLines (p : Page) (st : Settings) : List String :=
  match getCourseData p with
  | some d =>
    match buildHeaderMain p st d with
    | Except.ok h => h
    | Except.error _ => []
  | none => fallbackHeader p st

-- ### Transcript extraction and the copy action

/-- The predicate realised by `'span[data-purpose="cue-text"]'`. -/
def isCueText (e : CueElem) : Bool :=
  e.tag == "span" && e.dataPurpose == some ("cue-text")

/-- `transcriptPanel.querySelectorAll('span[data-purpose="cue-text"]')` in
document order. -/
def cueTextElements (panel : TranscriptPanel) : List CueElem :=
  panel.elems.filter isCueText

/-- The transcript extraction: qualifying line elements, trimmed, in
document order; total, and `[]` when nothing matches. -/
def extractTranscript (panel : TranscriptPanel) : List String :=
  (cueTextElements panel).map (fun e => jsTrim e.textContent)

/-- Observable outcome of one `handleCopyClick` invocation: either an early
return (panel missing / no cue text) or a clipboard write of the composed
text. -/
inductive CopyResult where
  | panelNotFound
  | noText
  | wrote (text : String)
deriving DecidableEq

/-- Steps 4–5 of `handleCopyClick`: find the panel, query the cue-text
elements, short-circuit on absence, otherwise compose
`headerLines.join('\n') + transcriptLines`. -/
def handleCopyClick (p : Page) (st : Settings) : CopyResult :=
  let hdr := headerLines p st
  match p.transcriptPanel with
  | none => CopyResult.panelNotFound
  | some panel =>
    let els := cueTextElements panel
    if els.length = 0 then CopyResult.noText
    else
      CopyResult.wrote
        (joinSep ("\n") hdr ++ joinSep ("\n") (els.map (fun e => jsTrim e.textContent)))

/-- Whether the invocation reached the `navigator.clipboard.writeText`
call. -/
def clipboardWriteAttempted : CopyResult → Bool
  | CopyResult.wrote _ => true
  | _ => false

/-- The button label set by the invocation, given the success of the
clipboard write and of the `execCommand` fallback. -/
def labelAfterCopy (r : CopyResult) (clipboardOk fallbackOk : Bool) : String :=
  match r with
  | CopyResult.panelNotFound => "Error: Panel not found"
  | CopyResult.noText => "No text found"
  | CopyResult.wrote _ =>
    if clipboardOk then "Copied!" else if fallbackOk then "Copied!" else "Copy Failed!"

-- ### UI injection (`injectUI`) and the observer (`initObserver`)

/-- The document as relevant to `injectUI`: the multiset of element ids
present.  `injectUI` checks `document.getElementById('utc-ui-container')`
and prepends the container only when addressed lookup fails. -/
structure Doc where
  ids : List String
deriving DecidableEq

/-- `injectUI`: dedup check by element id, then prepend. -/
def injectUI (d : Doc) : Doc :=
  if d.ids.contains ("utc-ui-container") then d
  else Doc.mk (("utc-ui-container") :: d.ids)

/-- The observer callback loop of `initObserver`: on each mutation batch the
container is re-queried (`presentAtBatch` records the outcome of each
query); on the first hit the UI is injected and the observer disconnects.
Returns whether injection happened. -/
def observeLoop : List Bool → Bool
  | [] => false
  | b :: rest => if b then true else observeLoop rest

/-- `initObserver`: registers the MutationObserver on `document.body` and
returns whether injection is ever triggered.  The source performs no
check of the document before the first mutation callback, so
`presentAtStart` (whether the target container already exists when the
observer starts) is never consulted. -/
def initObserver (_presentAtStart : Bool) (presentAtBatch : List Bool) : Bool :=
  observeLoop presentAtBatch

-- ### Timer model for the feedback label

/-- One completed copy invocation: at `time` the button label is set to
`label` and an unconditional revert to `'Copy Transcript'` is scheduled
`delay` ms later (`setTimeout` at the end of `handleCopyClick`; the code
never cancels a pending revert). -/
structure Completion where
  time : Nat
  label : String
  delay : Nat
deriving DecidableEq

/-- The button label observed at time `T`, obtained from the last write
(label set or timer fire) at or before `T`.  Writes are exactly those the
code performs: each completion writes its outcome label at its time and
`'Copy Transcript'` at `time + delay`. -/
def labelAtTime (cs : List Completion) (T : Nat) : String :=
  let ws := cs.flatMap (fun c => [(c.time, c.label), (c.time + c.delay, "Copy Transcript")])
  (ws.foldl (fun best w => if w.1 ≤ T ∧ best.1 ≤ w.1 then w else best)
    ((0, "Copy Transcript") : Nat × String)).2

-- ### Spec-side notions used to state the claims

/-- A line of the output carries marker `m` when it starts with `m`
(character-wise). -/
def strHasMarker (m l : String) : Bool :=
  decide (l.data.take m.data.length = m.data)

def instMark : String := "* **Instructors:**"
def ratingMark : String := "* **Rating:**"
def lengthMark : String := "* **Total Length:**"
def updatedMark : String := "* **Last Updated:**"
def captionsMark : String := "* **Captions:**"
def languageMark : String := "* **Language:**"

/-- The instructors source value counts as found when `instructorInfo` and
`instructors_info` are both present (truthy) in the blob. -/
def instructorsFound (d : CourseData) : Bool :=
  match d.instructorInfo with
  | some info => info.instructors_info.isSome
  | none => false

/-- The rating source value counts as found when `courseLeadData` carries a
truthy `rating`. -/
def ratingValueFound (p : Page) : Bool :=
  match getCourseData p with
  | some d =>
    match d.courseLeadData with
    | some lead =>
      match lead.rating with
      | some v => jsNumTruthy v
      | none => false
    | none => false
  | none => false

/-- The total-length source value counts as found when `content_info_short`
is a non-empty string. -/
def lengthFound (d : CourseData) : Bool :=
  match d.courseLeadData with
  | some lead =>
    match lead.content_info_short with
    | some v => v ≠ ""
    | none => false
  | none => false

/-- The last-updated source value counts as found when `last_update_date`
is a non-empty string. -/
def updatedFound (d : CourseData) : Bool :=
  match d.courseLeadData with
  | some lead =>
    match lead.last_update_date with
    | some v => v ≠ ""
    | none => false
  | none => false

/-- The captions source value counts as found when `captionedLanguages` is
a non-empty list. -/
def captionsFound (d : CourseData) : Bool :=
  match d.courseLeadData with
  | some lead =>
    match lead.captionedLanguages with
    | some ls => ls.length > 0
    | none => false
  | none => false

/-- The language source value counts as found when the language caption
element exists and its text-node content is non-empty. -/
def languageFound (p : Page) : Bool :=
  match p.langEl with
  | some nodes => langText nodes ≠ ""
  | none => false

/-- A header section followed by its separator, omitted entirely (separator
included) when the section is empty. -/
def gBlock (b : List String) : List String :=
  if b = [] then [] else b ++ ["---"]

/-- The section/lecture header section as the spec describes it. -/
def secLectureLines (p : Page) (st : Settings) : List String :=
  if st.includeSectionLecture then
    ["**Section:** " ++ (sectionLectureTitles p).1,
     "**Lecture:** " ++ (sectionLectureTitles p).2]
  else []

/-- The `Course Details` header section: the bullet lines under their
heading, or nothing at all when no bullet line exists. -/
def detailsSection (dls : List String) : List String :=
  if dls = [] then [] else ("**Course Details:**") :: dls

/-- The spec's fixed composition order: the header sections in order, each
non-empty one followed by the separator, each empty one omitted together
with its separator, and then the `Transcript` heading. -/
def specAssemble (sections : List (List String)) : List String :=
  (sections.filter (fun b => b ≠ [])).foldr (fun b acc => b ++ ("---") :: acc)
    ["## Transcript\n"]

/-- Modelled from the spec: the `start()` operation of the watcher is
required to register the mutation subscription AND perform one immediate
synchronous check, so injection triggers when the container is present at
start or at any observed batch. -/
def specStartTriggers (presentAtStart : Bool) (presentAtBatch : List Bool) : Bool :=
  presentAtStart || observeLoop presentAtBatch

-- ### Helper lemmas about markers

theorem strHasMarker_iff (m l : String) :
    strHasMarker m l = true ↔ l.data.take m.data.length = m.data := by
  unfold strHasMarker
  exact decide_eq_true_iff

theorem marker_true_append (m a x : String)
    (h1 : m.data.length ≤ a.data.length)
    (h2 : strHasMarker m a = true) :
    strHasMarker m (a ++ x) = true := by
  rw [strHasMarker_iff] at h2 ⊢
  rw [String.data_append, List.take_append_of_le_length h1]
  exact h2

theorem marker_false_take (m a x : String) (k : Nat)
    (h1 : k ≤ m.data.length) (h2 : k ≤ a.data.length)
    (h3 : ¬ a.data.take k = m.data.take k) :
    strHasMarker m (a ++ x) = false := by
  rw [Bool.eq_false_iff]
  intro hEq
  rw [strHasMarker_iff] at hEq
  apply h3
  have hk := congrArg (List.take k) hEq
  rw [List.take_take, min_eq_left h1, String.data_append,
    List.take_append_of_le_length h2] at hk
  exact hk

-- ### Structural helper lemmas about the composed header

theorem buildHeaderMain_eq (p : Page) (st : Settings) (d : CourseData)
    (dls : List String) (h : detailsLinesE p st d = Except.ok dls) :
    buildHeaderMain p st d = Except.ok
      (gBlock (titleSubLines p st) ++ gBlock (secLectureLines p st) ++
       gBlock (detailsSection dls) ++ ["## Transcript\n"]) := by
  unfold buildHeaderMain
  simp only [h]
  have hA : (if (titleSubLines p st).length > 0 then titleSubLines p st ++ ["---"]
      else titleSubLines p st) = gBlock (titleSubLines p st) := by
    unfold gBlock
    rcases titleSubLines p st with _ | ⟨a, l⟩ <;> simp
  have hB : (if st.includeSectionLecture then
      ["**Section:** " ++ (sectionLectureTitles p).1,
       "**Lecture:** " ++ (sectionLectureTitles p).2, "---"]
      else []) = gBlock (secLectureLines p st) := by
    unfold gBlock secLectureLines
    cases st.includeSectionLecture <;> simp
  have hC : (if dls.length > 0 then ("**Course Details:**") :: (dls ++ ["---"]) else []) =
      gBlock (detailsSection dls) := by
    unfold gBlock detailsSection
    by_cases hdl : dls = []
    · subst hdl; simp
    · simp [hdl, List.length_pos.mpr hdl]
  rw [hA, hB, hC]

theorem specAssemble_three (b1 b2 b3 : List String) :
    specAssemble [b1, b2, b3] =
      gBlock b1 ++ gBlock b2 ++ gBlock b3 ++ ["## Transcript\n"] := by
  unfold specAssemble gBlock
  by_cases h1 : b1 = [] <;> by_cases h2 : b2 = [] <;> by_cases h3 : b3 = [] <;>
    simp [h1, h2, h3, List.filter, List.append_assoc]

theorem headerLines_eq_main (p : Page) (st : Settings) (d : CourseData)
    (dls : List String) (hcd : getCourseData p = some d)
    (h : detailsLinesE p st d = Except.ok dls) :
    headerLines p st =
      gBlock (titleSubLines p st) ++ gBlock (secLectureLines p st) ++
      gBlock (detailsSection dls) ++ ["## Transcript\n"] := by
  simp only [headerLines, hcd, buildHeaderMain_eq p st d dls h]

-- ### Inversion and shape lemmas for the details blocks

theorem statLinesE_inv (st : Settings) (lead : CourseLeadData) (statB : List String)
    (h : statLinesE st lead = Except.ok statB) :
    ∃ ratB, ratingLineE st lead = Except.ok ratB ∧
      statB = ratB ++ lenLines st lead ++ updLines st lead ++ capLines st lead := by
  unfold statLinesE at h
  cases hr : ratingLineE st lead with
  | ok ratB => rw [hr] at h; cases h; exact ⟨ratB, rfl, rfl⟩
  | error e => rw [hr] at h; cases h

theorem detailsLinesE_inv (p : Page) (st : Settings) (d : CourseData) (dls : List String)
    (h : detailsLinesE p st d = Except.ok dls) :
    (∃ lead statB, d.courseLeadData = some lead ∧ statLinesE st lead = Except.ok statB ∧
       dls = instLines st d ++ statB ++ langLines p st) ∨
    (d.courseLeadData = none ∧ dls = instLines st d ++ langLines p st) := by
  unfold detailsLinesE at h
  cases hld : d.courseLeadData with
  | some lead =>
    simp only [hld] at h
    cases hs : statLinesE st lead with
    | ok statB =>
      simp only [hs] at h
      cases h
      exact Or.inl ⟨lead, statB, rfl, hs, rfl⟩
    | error e => simp only [hs] at h; cases h
  | none =>
    simp only [hld] at h
    cases h
    exact Or.inr ⟨rfl, by simp⟩

theorem instLines_shape (st : Settings) (d : CourseData) (l : String)
    (h : l ∈ instLines st d) : ∃ x, l = "* **Instructors:** " ++ x := by
  unfold instLines at h
  split at h
  · split at h
    · split at h
      · exact ⟨_, List.mem_singleton.mp h⟩
      · simp at h
    · simp at h
  · simp at h

theorem ratB_shape (st : Settings) (lead : CourseLeadData) (ratB : List String)
    (hok : ratingLineE st lead = Except.ok ratB) (l : String) (h : l ∈ ratB) :
    ∃ x, l = "* **Rating:** " ++ x := by
  unfold ratingLineE at hok
  split at hok
  · split at hok
    · cases hok
      exact ⟨_, List.mem_singleton.mp h⟩
    · cases hok
  · cases hok
    simp at h

theorem lenLines_shape (st : Settings) (lead : CourseLeadData) (l : String)
    (h : l ∈ lenLines st lead) : ∃ x, l = "* **Total Length:** " ++ x := by
  unfold lenLines at h
  split at h
  · split at h
    · split at h
      · exact ⟨_, List.mem_singleton.mp h⟩
      · simp at h
    · simp at h
  · simp at h

theorem updLines_shape (st : Settings) (lead : CourseLeadData) (l : String)
    (h : l ∈ updLines st lead) : ∃ x, l = "* **Last Updated:** " ++ x := by
  unfold updLines at h
  split at h
  · split at h
    · split at h
      · exact ⟨_, List.mem_singleton.mp h⟩
      · simp at h
    · simp at h
  · simp at h

theorem capLines_shape (st : Settings) (lead : CourseLeadData) (l : String)
    (h : l ∈ capLines st lead) : ∃ x, l = "* **Captions:** " ++ x := by
  unfold capLines at h
  split at h
  · split at h
    · split at h
      · exact ⟨_, List.mem_singleton.mp h⟩
      · simp at h
    · simp at h
  · simp at h

theorem langLines_shape (p : Page) (st : Settings) (l : String)
    (h : l ∈ langLines p st) : ∃ x, l = "* **Language:** " ++ x := by
  unfold langLines at h
  split at h
  · split at h
    · split at h
      · exact ⟨_, List.mem_singleton.mp h⟩
      · simp at h
    · simp at h
  · simp at h

theorem titleSub_shape (p : Page) (st : Settings) (l : String)
    (h : l ∈ titleSubLines p st) :
    (∃ x, l = "# " ++ x) ∨ (∃ x, l = "## *" ++ x) := by
  unfold titleSubLines at h
  rcases List.mem_append.mp h with hA | hA
  · left
    split at hA
    · split at hA
      · exact ⟨_, List.mem_singleton.mp hA⟩
      · simp at hA
    · simp at hA
  · right
    split at hA
    · split at hA
      · exact ⟨_, List.mem_singleton.mp hA⟩
      · simp at hA
    · simp at hA

theorem secLecture_shape (p : Page) (st : Settings) (l : String)
    (h : l ∈ secLectureLines p st) :
    (∃ x, l = "**Section:** " ++ x) ∨ (∃ x, l = "**Lecture:** " ++ x) := by
  unfold secLectureLines at h
  split at h
  · simp only [List.mem_cons, List.not_mem_nil, or_false] at h
    rcases h with rfl | rfl
    · exact Or.inl ⟨_, rfl⟩
    · exact Or.inr ⟨_, rfl⟩
  · simp at h

-- ### Non-emptiness of each details block, in terms of the found-predicates

theorem instLines_ne_iff (st : Settings) (d : CourseData) :
    instLines st d ≠ [] ↔ (st.includeInstructors = true ∧ instructorsFound d = true) := by
  cases hf : st.includeInstructors <;>
    rcases hI : d.instructorInfo with _ | info <;>
    simp_all [instLines, instructorsFound] <;>
    rcases hII : info.instructors_info with _ | insts <;>
    simp_all

theorem ratB_ne_iff (st : Settings) (lead : CourseLeadData) (ratB : List String)
    (hok : ratingLineE st lead = Except.ok ratB) :
    ratB ≠ [] ↔ st.includeRating = true := by
  unfold ratingLineE at hok
  split at hok
  · split at hok
    · cases hok; simp_all
    · cases hok
  · cases hok; simp_all

theorem lenLines_ne_iff (st : Settings) (d : CourseData) (lead : CourseLeadData)
    (hld : d.courseLeadData = some lead) :
    lenLines st lead ≠ [] ↔ (st.includeLength = true ∧ lengthFound d = true) := by
  cases hf : st.includeLength <;>
    rcases hc : lead.content_info_short with _ | v <;>
    simp_all [lenLines, lengthFound] <;>
    by_cases hv : v = "" <;> simp_all

theorem updLines_ne_iff (st : Settings) (d : CourseData) (lead : CourseLeadData)
    (hld : d.courseLeadData = some lead) :
    updLines st lead ≠ [] ↔ (st.includeLastUpdated = true ∧ updatedFound d = true) := by
  cases hf : st.includeLastUpdated <;>
    rcases hc : lead.last_update_date with _ | v <;>
    simp_all [updLines, updatedFound] <;>
    by_cases hv : v = "" <;> simp_all

theorem capLines_ne_iff (st : Settings) (d : CourseData) (lead : CourseLeadData)
    (hld : d.courseLeadData = some lead) :
    capLines st lead ≠ [] ↔ (st.includeCaptions = true ∧ captionsFound d = true) := by
  cases hf : st.includeCaptions <;>
    rcases hc : lead.captionedLanguages with _ | ls <;>
    simp_all [capLines, captionsFound] <;>
    by_cases hl : ls.length > 0 <;> simp_all [List.length_pos]

theorem langLines_ne_iff (p : Page) (st : Settings) :
    langLines p st ≠ [] ↔ (st.includeLanguage = true ∧ languageFound p = true) := by
  cases hf : st.includeLanguage <;>
    rcases hc : p.langEl with _ | nodes <;>
    simp_all [langLines, languageFound] <;>
    by_cases ht : langText nodes = "" <;> simp_all

-- ### Membership of marker lines in the composed header

theorem exists_mem_append {α : Type} (P : α → Prop) (A B : List α) :
    (∃ l ∈ A ++ B, P l) ↔ (∃ l ∈ A, P l) ∨ (∃ l ∈ B, P l) := by
  constructor
  · rintro ⟨l, hl, hP⟩
    rcases List.mem_append.mp hl with h | h
    · exact Or.inl ⟨l, h, hP⟩
    · exact Or.inr ⟨l, h, hP⟩
  · rintro (⟨l, hl, hP⟩ | ⟨l, hl, hP⟩)
    · exact ⟨l, List.mem_append.mpr (Or.inl hl), hP⟩
    · exact ⟨l, List.mem_append.mpr (Or.inr hl), hP⟩

theorem exists_mem_gBlock (P : String → Prop) (b : List String) (hsep : ¬ P ("---")) :
    (∃ l ∈ gBlock b, P l) ↔ (∃ l ∈ b, P l) := by
  unfold gBlock
  split
  · next hb => subst hb; simp
  · rw [exists_mem_append]
    constructor
    · rintro (h | ⟨l, hl, hP⟩)
      · exact h
      · rcases List.mem_singleton.mp hl with rfl
        exact absurd hP hsep
    · exact Or.inl

theorem exists_mem_detailsSection (P : String → Prop) (dls : List String)
    (hcd : ¬ P ("**Course Details:**")) :
    (∃ l ∈ detailsSection dls, P l) ↔ (∃ l ∈ dls, P l) := by
  unfold detailsSection
  split
  · next hd => subst hd; simp
  · constructor
    · rintro ⟨l, hl, hP⟩
      rcases List.mem_cons.mp hl with rfl | hl
      · exact absurd hP hcd
      · exact ⟨l, hl, hP⟩
    · rintro ⟨l, hl, hP⟩
      exact ⟨l, List.mem_cons_of_mem _ hl, hP⟩

theorem headerMarker_to_dls (p : Page) (st : Settings) (d : CourseData)
    (dls : List String) (m : String)
    (hcd : getCourseData p = some d)
    (hdls : detailsLinesE p st d = Except.ok dls)
    (hj1 : ∀ x, strHasMarker m ("# " ++ x) = false)
    (hj2 : ∀ x, strHasMarker m ("## *" ++ x) = false)
    (hj3 : ∀ x, strHasMarker m ("**Section:** " ++ x) = false)
    (hj4 : ∀ x, strHasMarker m ("**Lecture:** " ++ x) = false)
    (hj5 : strHasMarker m ("---") = false)
    (hj6 : strHasMarker m ("**Course Details:**") = false)
    (hj7 : strHasMarker m ("## Transcript\n") = false) :
    (∃ l ∈ headerLines p st, strHasMarker m l = true) ↔
      (∃ l ∈ dls, strHasMarker m l = true) := by
  rw [headerLines_eq_main p st d dls hcd hdls]
  rw [exists_mem_append, exists_mem_append, exists_mem_append]
  rw [exists_mem_gBlock _ _ (by simp [hj5]), exists_mem_gBlock _ _ (by simp [hj5]),
    exists_mem_gBlock _ _ (by simp [hj5])]
  rw [exists_mem_detailsSection _ _ (by simp [hj6])]
  constructor
  · rintro (((⟨l, hl, hP⟩ | ⟨l, hl, hP⟩) | h) | ⟨l, hl, hP⟩)
    · rcases titleSub_shape p st l hl with ⟨x, rfl⟩ | ⟨x, rfl⟩
      · rw [hj1 x] at hP; cases hP
      · rw [hj2 x] at hP; cases hP
    · rcases secLecture_shape p st l hl with ⟨x, rfl⟩ | ⟨x, rfl⟩
      · rw [hj3 x] at hP; cases hP
      · rw [hj4 x] at hP; cases hP
    · exact h
    · rcases List.mem_singleton.mp hl with rfl
      rw [hj7] at hP; cases hP
  · intro h
    exact Or.inl (Or.inr h)

theorem marker_block_iff (m pre : String) (pB : Bool) (B : List String)
    (hshape : ∀ l ∈ B, ∃ x, l = pre ++ x)
    (hpre : ∀ x, strHasMarker m (pre ++ x) = pB) :
    (∃ l ∈ B, strHasMarker m l = true) ↔ (pB = true ∧ B ≠ []) := by
  constructor
  · rintro ⟨l, hl, hP⟩
    rcases hshape l hl with ⟨x, rfl⟩
    rw [hpre x] at hP
    exact ⟨hP, List.ne_nil_of_mem hl⟩
  · rintro ⟨hpB, hne⟩
    rcases List.exists_mem_of_ne_nil B hne with ⟨l, hl⟩
    rcases hshape l hl with ⟨x, rfl⟩
    exact ⟨pre ++ x, hl, by rw [hpre x, hpB]⟩

set_option maxHeartbeats 1600000 in
theorem dls_marker_iff (p : Page) (st : Settings) (d : CourseData) (dls : List String)
    (hdls : detailsLinesE p st d = Except.ok dls)
    (m : String) (pInst pRat pLen pUpd pCap pLang : Bool)
    (hInst : ∀ x, strHasMarker m ("* **Instructors:** " ++ x) = pInst)
    (hRat : ∀ x, strHasMarker m ("* **Rating:** " ++ x) = pRat)
    (hLen : ∀ x, strHasMarker m ("* **Total Length:** " ++ x) = pLen)
    (hUpd : ∀ x, strHasMarker m ("* **Last Updated:** " ++ x) = pUpd)
    (hCap : ∀ x, strHasMarker m ("* **Captions:** " ++ x) = pCap)
    (hLang : ∀ x, strHasMarker m ("* **Language:** " ++ x) = pLang) :
    (∃ l ∈ dls, strHasMarker m l = true) ↔
      ((pInst = true ∧ st.includeInstructors = true ∧ instructorsFound d = true) ∨
       (pRat = true ∧ st.includeRating = true ∧ d.courseLeadData.isSome = true) ∨
       (pLen = true ∧ st.includeLength = true ∧ lengthFound d = true) ∨
       (pUpd = true ∧ st.includeLastUpdated = true ∧ updatedFound d = true) ∨
       (pCap = true ∧ st.includeCaptions = true ∧ captionsFound d = true) ∨
       (pLang = true ∧ st.includeLanguage = true ∧ languageFound p = true)) := by
  rcases detailsLinesE_inv p st d dls hdls with ⟨lead, statB, hld, hst, rfl⟩ | ⟨hld, rfl⟩
  · rcases statLinesE_inv st lead statB hst with ⟨ratB, hr, rfl⟩
    rw [exists_mem_append, exists_mem_append, exists_mem_append, exists_mem_append,
      exists_mem_append]
    rw [marker_block_iff m _ pInst _ (instLines_shape st d) hInst,
      marker_block_iff m _ pRat _ (ratB_shape st lead ratB hr) hRat,
      marker_block_iff m _ pLen _ (lenLines_shape st lead) hLen,
      marker_block_iff m _ pUpd _ (updLines_shape st lead) hUpd,
      marker_block_iff m _ pCap _ (capLines_shape st lead) hCap,
      marker_block_iff m _ pLang _ (langLines_shape p st) hLang]
    rw [instLines_ne_iff st d, ratB_ne_iff st lead ratB hr,
      lenLines_ne_iff st d lead hld, updLines_ne_iff st d lead hld,
      capLines_ne_iff st d lead hld, langLines_ne_iff p st]
    simp only [hld, Option.isSome_some]
    tauto
  · rw [exists_mem_append]
    rw [marker_block_iff m _ pInst _ (instLines_shape st d) hInst,
      marker_block_iff m _ pLang _ (langLines_shape p st) hLang]
    rw [instLines_ne_iff st d, langLines_ne_iff p st]
    simp only [hld, Option.isSome_none, lengthFound, updatedFound, captionsFound]
    constructor
    · rintro (h | h)
      · exact Or.inl (by tauto)
      · refine Or.inr (Or.inr (Or.inr (Or.inr (Or.inr (by tauto)))))
    · rintro (h | h | h | h | h | h) <;> simp_all <;> tauto

-- ### Per-marker characterisations of the composed header

theorem instMark_line_iff (p : Page) (st : Settings) (d : CourseData) (dls : List String)
    (hcd : getCourseData p = some d) (hdls : detailsLinesE p st d = Except.ok dls) :
    (∃ l ∈ headerLines p st, strHasMarker instMark l = true) ↔
      (st.includeInstructors = true ∧ instructorsFound d = true) := by
  rw [headerMarker_to_dls p st d dls instMark hcd hdls
      (fun x => marker_false_take instMark ("# ") x 1 (by decide) (by decide) (by decide))
      (fun x => marker_false_take instMark ("## *") x 1 (by decide) (by decide) (by decide))
      (fun x => marker_false_take instMark ("**Section:** ") x 2 (by decide) (by decide) (by decide))
      (fun x => marker_false_take instMark ("**Lecture:** ") x 2 (by decide) (by decide) (by decide))
      (by decide) (by decide) (by decide)]
  rw [dls_marker_iff p st d dls hdls instMark true false false false false false
      (fun x => marker_true_append instMark ("* **Instructors:** ") x (by decide) (by decide))
      (fun x => marker_false_take instMark ("* **Rating:** ") x 7 (by decide) (by decide) (by decide))
      (fun x => marker_false_take instMark ("* **Total Length:** ") x 7 (by decide) (by decide) (by decide))
      (fun x => marker_false_take instMark ("* **Last Updated:** ") x 7 (by decide) (by decide) (by decide))
      (fun x => marker_false_take instMark ("* **Captions:** ") x 7 (by decide) (by decide) (by decide))
      (fun x => marker_false_take instMark ("* **Language:** ") x 7 (by decide) (by decide) (by decide))]
  simp

theorem ratingMark_line_iff (p : Page) (st : Settings) (d : CourseData) (dls : List String)
    (hcd : getCourseData p = some d) (hdls : detailsLinesE p st d = Except.ok dls) :
    (∃ l ∈ headerLines p st, strHasMarker ratingMark l = true) ↔
      (st.includeRating = true ∧ d.courseLeadData.isSome = true) := by
  rw [headerMarker_to_dls p st d dls ratingMark hcd hdls
      (fun x => marker_false_take ratingMark ("# ") x 1 (by decide) (by decide) (by decide))
      (fun x => marker_false_take ratingMark ("## *") x 1 (by decide) (by decide) (by decide))
      (fun x => marker_false_take ratingMark ("**Section:** ") x 2 (by decide) (by decide) (by decide))
      (fun x => marker_false_take ratingMark ("**Lecture:** ") x 2 (by decide) (by decide) (by decide))
      (by decide) (by decide) (by decide)]
  rw [dls_marker_iff p st d dls hdls ratingMark false true false false false false
      (fun x => marker_false_take ratingMark ("* **Instructors:** ") x 7 (by decide) (by decide) (by decide))
      (fun x => marker_true_append ratingMark ("* **Rating:** ") x (by decide) (by decide))
      (fun x => marker_false_take ratingMark ("* **Total Length:** ") x 7 (by decide) (by decide) (by decide))
      (fun x => marker_false_take ratingMark ("* **Last Updated:** ") x 7 (by decide) (by decide) (by decide))
      (fun x => marker_false_take ratingMark ("* **Captions:** ") x 7 (by decide) (by decide) (by decide))
      (fun x => marker_false_take ratingMark ("* **Language:** ") x 7 (by decide) (by decide) (by decide))]
  simp

theorem lengthMark_line_iff (p : Page) (st : Settings) (d : CourseData) (dls : List String)
    (hcd : getCourseData p = some d) (hdls : detailsLinesE p st d = Except.ok dls) :
    (∃ l ∈ headerLines p st, strHasMarker lengthMark l = true) ↔
      (st.includeLength = true ∧ lengthFound d = true) := by
  rw [headerMarker_to_dls p st d dls lengthMark hcd hdls
      (fun x => marker_false_take lengthMark ("# ") x 1 (by decide) (by decide) (by decide))
      (fun x => marker_false_take lengthMark ("## *") x 1 (by decide) (by decide) (by decide))
      (fun x => marker_false_take lengthMark ("**Section:** ") x 2 (by decide) (by decide) (by decide))
      (fun x => marker_false_take lengthMark ("**Lecture:** ") x 2 (by decide) (by decide) (by decide))
      (by decide) (by decide) (by decide)]
  rw [dls_marker_iff p st d dls hdls lengthMark false false true false false false
      (fun x => marker_false_take lengthMark ("* **Instructors:** ") x 7 (by decide) (by decide) (by decide))
      (fun x => marker_false_take lengthMark ("* **Rating:** ") x 7 (by decide) (by decide) (by decide))
      (fun x => marker_true_append lengthMark ("* **Total Length:** ") x (by decide) (by decide))
      (fun x => marker_false_take lengthMark ("* **Last Updated:** ") x 7 (by decide) (by decide) (by decide))
      (fun x => marker_false_take lengthMark ("* **Captions:** ") x 7 (by decide) (by decide) (by decide))
      (fun x => marker_false_take lengthMark ("* **Language:** ") x 7 (by decide) (by decide) (by decide))]
  simp

theorem updatedMark_line_iff (p : Page) (st : Settings) (d : CourseData) (dls : List String)
    (hcd : getCourseData p = some d) (hdls : detailsLinesE p st d = Except.ok dls) :
    (∃ l ∈ headerLines p st, strHasMarker updatedMark l = true) ↔
      (st.includeLastUpdated = true ∧ updatedFound d = true) := by
  rw [headerMarker_to_dls p st d dls updatedMark hcd hdls
      (fun x => marker_false_take updatedMark ("# ") x 1 (by decide) (by decide) (by decide))
      (fun x => marker_false_take updatedMark ("## *") x 1 (by decide) (by decide) (by decide))
      (fun x => marker_false_take updatedMark ("**Section:** ") x 2 (by decide) (by decide) (by decide))
      (fun x => marker_false_take updatedMark ("**Lecture:** ") x 2 (by decide) (by decide) (by decide))
      (by decide) (by decide) (by decide)]
  rw [dls_marker_iff p st d dls hdls updatedMark false false false true false false
      (fun x => marker_false_take updatedMark ("* **Instructors:** ") x 7 (by decide) (by decide) (by decide))
      (fun x => marker_false_take updatedMark ("* **Rating:** ") x 7 (by decide) (by decide) (by decide))
      (fun x => marker_false_take updatedMark ("* **Total Length:** ") x 7 (by decide) (by decide) (by decide))
      (fun x => marker_true_append updatedMark ("* **Last Updated:** ") x (by decide) (by decide))
      (fun x => marker_false_take updatedMark ("* **Captions:** ") x 7 (by decide) (by decide) (by decide))
      (fun x => marker_false_take updatedMark ("* **Language:** ") x 7 (by decide) (by decide) (by decide))]
  simp

theorem captionsMark_line_iff (p : Page) (st : Settings) (d : CourseData) (dls : List String)
    (hcd : getCourseData p = some d) (hdls : detailsLinesE p st d = Except.ok dls) :
    (∃ l ∈ headerLines p st, strHasMarker captionsMark l = true) ↔
      (st.includeCaptions = true ∧ captionsFound d = true) := by
  rw [headerMarker_to_dls p st d dls captionsMark hcd hdls
      (fun x => marker_false_take captionsMark ("# ") x 1 (by decide) (by decide) (by decide))
      (fun x => marker_false_take captionsMark ("## *") x 1 (by decide) (by decide) (by decide))
      (fun x => marker_false_take captionsMark ("**Section:** ") x 2 (by decide) (by decide) (by decide))
      (fun x => marker_false_take captionsMark ("**Lecture:** ") x 2 (by decide) (by decide) (by decide))
      (by decide) (by decide) (by decide)]
  rw [dls_marker_iff p st d dls hdls captionsMark false false false false true false
      (fun x => marker_false_take captionsMark ("* **Instructors:** ") x 7 (by decide) (by decide) (by decide))
      (fun x => marker_false_take captionsMark ("* **Rating:** ") x 7 (by decide) (by decide) (by decide))
      (fun x => marker_false_take captionsMark ("* **Total Length:** ") x 7 (by decide) (by decide) (by decide))
      (fun x => marker_false_take captionsMark ("* **Last Updated:** ") x 7 (by decide) (by decide) (by decide))
      (fun x => marker_true_append captionsMark ("* **Captions:** ") x (by decide) (by decide))
      (fun x => marker_false_take captionsMark ("* **Language:** ") x 7 (by decide) (by decide) (by decide))]
  simp

theorem languageMark_line_iff (p : Page) (st : Settings) (d : CourseData) (dls : List String)
    (hcd : getCourseData p = some d) (hdls : detailsLinesE p st d = Except.ok dls) :
    (∃ l ∈ headerLines p st, strHasMarker languageMark l = true) ↔
      (st.includeLanguage = true ∧ languageFound p = true) := by
  rw [headerMarker_to_dls p st d dls languageMark hcd hdls
      (fun x => marker_false_take languageMark ("# ") x 1 (by decide) (by decide) (by decide))
      (fun x => marker_false_take languageMark ("## *") x 1 (by decide) (by decide) (by decide))
      (fun x => marker_false_take languageMark ("**Section:** ") x 2 (by decide) (by decide) (by decide))
      (fun x => marker_false_take languageMark ("**Lecture:** ") x 2 (by decide) (by decide) (by decide))
      (by decide) (by decide) (by decide)]
  rw [dls_marker_iff p st d dls hdls languageMark false false false false false true
      (fun x => marker_false_take languageMark ("* **Instructors:** ") x 7 (by decide) (by decide) (by decide))
      (fun x => marker_false_take languageMark ("* **Rating:** ") x 7 (by decide) (by decide) (by decide))
      (fun x => marker_false_take languageMark ("* **Total Length:** ") x 7 (by decide) (by decide) (by decide))
      (fun x => marker_false_take languageMark ("* **Last Updated:** ") x 7 (by decide) (by decide) (by decide))
      (fun x => marker_false_take languageMark ("* **Captions:** ") x 7 (by decide) (by decide) (by decide))
      (fun x => marker_true_append languageMark ("* **Language:** ") x (by decide) (by decide))]
  simp

-- ### Concrete fixtures

/-- A page on which every query fails. -/
def emptyPage : Page :=
  { dataModuleArgs := none
    courseTitleEl := none
    courseSubtitleEl := none
    lectureTitleEl := none
    currentLectureItem := none
    langEl := none
    transcriptPanel := none }

/-- A transcript panel holding a single qualifying cue-text line. -/
def onePanel : TranscriptPanel :=
  TranscriptPanel.mk [CueElem.mk ("span") (some ("cue-text")) ("hello")]

-- ### C1

/-- C1: for every invocation in which the transcript container is found but
zero qualifying transcript line elements exist, `handleCopyClick`
short-circuits before any clipboard write, the label is set to
`No text found`, and no partial copy occurs. -/
theorem c1_no_text_short_circuit (p : Page) (st : Settings) (panel : TranscriptPanel)
    (cb fb : Bool)
    (hp : p.transcriptPanel = some panel)
    (hz : cueTextElements panel = []) :
    handleCopyClick p st = CopyResult.noText ∧
    clipboardWriteAttempted (handleCopyClick p st) = false ∧
    labelAfterCopy (handleCopyClick p st) cb fb = "No text found" := by
  have hres : handleCopyClick p st = CopyResult.noText := by
    unfold handleCopyClick
    simp [hp, hz]
  exact ⟨hres, by rw [hres]; rfl, by rw [hres]; rfl⟩

/-- A transcript panel with an element that does not qualify as a cue-text
line. -/
def panelNoCues : TranscriptPanel := TranscriptPanel.mk [CueElem.mk ("div") none ("x")]

def pW1 : Page := { emptyPage with transcriptPanel := some panelNoCues }

theorem c1_witness :
    handleCopyClick pW1 DEFAULT_SETTINGS = CopyResult.noText ∧
    clipboardWriteAttempted (handleCopyClick pW1 DEFAULT_SETTINGS) = false ∧
    labelAfterCopy (handleCopyClick pW1 DEFAULT_SETTINGS) true true = "No text found" :=
  c1_no_text_short_circuit pW1 DEFAULT_SETTINGS panelNoCues true true rfl rfl

-- ### C2

/-- Course data whose `courseLeadData` exists but carries no values. -/
def dC2 : CourseData :=
  { instructorInfo := none
    courseLeadData := some
      { rating := none, num_reviews := none, content_info_short := none,
        last_update_date := none, captionedLanguages := none } }

def pC2 : Page := { emptyPage with dataModuleArgs := some (Except.ok dC2) }

def stC2 : Settings :=
  { includeCourseTitle := false, includeCourseSubtitle := false,
    includeSectionLecture := false, includeInstructors := false,
    includeRating := true, includeLength := false, includeLastUpdated := false,
    includeCaptions := false, includeLanguage := false }

/-- C2 counterexample: with `includeRating` enabled and `courseLeadData`
present but carrying no rating value, the rating sub-line still appears
(with `N/A` placeholders), so a sub-line can appear although its source
value was not found. -/
theorem c2_counterexample :
    stC2.includeRating = true ∧ ratingValueFound pC2 = false ∧
    (("* **Rating:** N/A (N/A reviews)") ∈ headerLines pC2 stC2) := by decide

/-- C2 (amended): when the metadata blob parses and the header build does
not throw, each header sub-line appears in the composed output iff its
flag is enabled and its source value was found — except the rating line,
which appears iff its flag is enabled and `courseLeadData` exists at all,
with `N/A` standing in for a missing rating or review count. -/
theorem c2_header_subline_iff (p : Page) (st : Settings) (d : CourseData) (dls : List String)
    (hcd : getCourseData p = some d) (hdls : detailsLinesE p st d = Except.ok dls) :
    ((∃ l ∈ headerLines p st, strHasMarker instMark l = true) ↔
      (st.includeInstructors = true ∧ instructorsFound d = true)) ∧
    ((∃ l ∈ headerLines p st, strHasMarker ratingMark l = true) ↔
      (st.includeRating = true ∧ d.courseLeadData.isSome = true)) ∧
    ((∃ l ∈ headerLines p st, strHasMarker lengthMark l = true) ↔
      (st.includeLength = true ∧ lengthFound d = true)) ∧
    ((∃ l ∈ headerLines p st, strHasMarker updatedMark l = true) ↔
      (st.includeLastUpdated = true ∧ updatedFound d = true)) ∧
    ((∃ l ∈ headerLines p st, strHasMarker captionsMark l = true) ↔
      (st.includeCaptions = true ∧ captionsFound d = true)) ∧
    ((∃ l ∈ headerLines p st, strHasMarker languageMark l = true) ↔
      (st.includeLanguage = true ∧ languageFound p = true)) :=
  ⟨instMark_line_iff p st d dls hcd hdls,
   ratingMark_line_iff p st d dls hcd hdls,
   lengthMark_line_iff p st d dls hcd hdls,
   updatedMark_line_iff p st d dls hcd hdls,
   captionsMark_line_iff p st d dls hcd hdls,
   languageMark_line_iff p st d dls hcd hdls⟩

/-- A parsed blob carrying nothing at all. -/
def dW2 : CourseData := CourseData.mk none none

def pW2 : Page := { emptyPage with dataModuleArgs := some (Except.ok dW2) }

theorem c2_witness :
    ((∃ l ∈ headerLines pW2 DEFAULT_SETTINGS, strHasMarker instMark l = true) ↔
      (DEFAULT_SETTINGS.includeInstructors = true ∧ instructorsFound dW2 = true)) ∧
    ((∃ l ∈ headerLines pW2 DEFAULT_SETTINGS, strHasMarker ratingMark l = true) ↔
      (DEFAULT_SETTINGS.includeRating = true ∧ dW2.courseLeadData.isSome = true)) ∧
    ((∃ l ∈ headerLines pW2 DEFAULT_SETTINGS, strHasMarker lengthMark l = true) ↔
      (DEFAULT_SETTINGS.includeLength = true ∧ lengthFound dW2 = true)) ∧
    ((∃ l ∈ headerLines pW2 DEFAULT_SETTINGS, strHasMarker updatedMark l = true) ↔
      (DEFAULT_SETTINGS.includeLastUpdated = true ∧ updatedFound dW2 = true)) ∧
    ((∃ l ∈ headerLines pW2 DEFAULT_SETTINGS, strHasMarker captionsMark l = true) ↔
      (DEFAULT_SETTINGS.includeCaptions = true ∧ captionsFound dW2 = true)) ∧
    ((∃ l ∈ headerLines pW2 DEFAULT_SETTINGS, strHasMarker languageMark l = true) ↔
      (DEFAULT_SETTINGS.includeLanguage = true ∧ languageFound pW2 = true)) :=
  c2_header_subline_iff pW2 DEFAULT_SETTINGS dW2 [] rfl rfl

-- ### C3

def pC3 : Page :=
  { emptyPage with dataModuleArgs := some (Except.error ()), transcriptPanel := some onePanel }

/-- C3 counterexample: an invocation on which the metadata blob fails to
parse still reaches composition and writes to the clipboard, but its
output contains no `Transcript` heading at all, contradicting the claimed
fixed order for every composing invocation. -/
theorem c3_counterexample :
    handleCopyClick pC3 DEFAULT_SETTINGS =
      CopyResult.wrote ("# Unknown Section\n## Unknown Lecture\nhello") ∧
    ((headerLines pC3 DEFAULT_SETTINGS).all
      (fun l => !(strHasMarker ("## Transcript") l))) = true := by decide

/-- C3 (amended): for every invocation in which the metadata blob parses
and the header build does not throw, the composed output follows the fixed
order — title/subtitle section, section/lecture section, Course Details
section, each non-empty section followed by its separator and each empty
one omitted together with its separator, then the `Transcript` heading —
followed by the transcript lines joined by newline. -/
theorem c3_ordered_composition (p : Page) (st : Settings) (d : CourseData)
    (dls : List String) (panel : TranscriptPanel)
    (hcd : getCourseData p = some d)
    (hdls : detailsLinesE p st d = Except.ok dls)
    (hp : p.transcriptPanel = some panel)
    (hne : cueTextElements panel ≠ []) :
    handleCopyClick p st = CopyResult.wrote
      (joinSep ("\n") (specAssemble
        [titleSubLines p st, secLectureLines p st, detailsSection dls]) ++
       joinSep ("\n") ((cueTextElements panel).map (fun e => jsTrim e.textContent))) := by
  have hh := headerLines_eq_main p st d dls hcd hdls
  have hs := specAssemble_three (titleSubLines p st) (secLectureLines p st) (detailsSection dls)
  unfold handleCopyClick
  simp only [hp]
  rw [if_neg (fun hzero => hne (List.length_eq_zero.mp hzero))]
  rw [hh, hs]

def dW3 : CourseData := CourseData.mk none none

def pW3 : Page :=
  { emptyPage with dataModuleArgs := some (Except.ok dW3), transcriptPanel := some onePanel }

theorem c3_witness :
    handleCopyClick pW3 DEFAULT_SETTINGS = CopyResult.wrote
      (joinSep ("\n") (specAssemble
        [titleSubLines pW3 DEFAULT_SETTINGS, secLectureLines pW3 DEFAULT_SETTINGS,
         detailsSection []]) ++
       joinSep ("\n") ((cueTextElements onePanel).map (fun e => jsTrim e.textContent))) :=
  c3_ordered_composition pW3 DEFAULT_SETTINGS dW3 [] onePanel rfl rfl rfl (by decide)

-- ### C4

/-- C4 (code behaviour at the failing input): two copies complete at 0ms
and 1500ms, both showing `Copied!`.  At 1999ms the label still shows the
second invocation's outcome, but at 2000ms the first invocation's revert
timer — never cancelled by the code — fires and overwrites the label,
although the second invocation's feedback window lasts until 3500ms.  So a
revert timer from an earlier invocation does overwrite the label state set
by a later invocation. -/
theorem c4_stale_timer_overwrites :
    labelAtTime [Completion.mk 0 ("Copied!") 2000, Completion.mk 1500 ("Copied!") 2000] 1999
      = "Copied!" ∧
    labelAtTime [Completion.mk 0 ("Copied!") 2000, Completion.mk 1500 ("Copied!") 2000] 2000
      = "Copy Transcript" ∧
    2000 < 1500 + 2000 := by decide

-- ### C5

/-- C5 counterexample: with the target container already present when the
watcher starts and no subsequent mutation batch, the source's
`initObserver` never injects, while the spec's `start()` (immediate
check plus subscription) would. -/
theorem c5_counterexample :
    initObserver true [] = false ∧ specStartTriggers true [] = true := by decide

/-- C5 (amended): `initObserver` registers the subtree-wide mutation
subscription only and performs no immediate synchronous check: injection
triggers iff the container is present at some observed mutation batch,
regardless of whether it was already present when the watcher started. -/
theorem c5_observer_no_initial_check :
    ∀ (ps : Bool) (bs : List Bool), initObserver ps bs = bs.any (fun b => b) := by
  intro ps bs
  induction bs with
  | nil => rfl
  | cons b rest ih =>
    cases b
    · simpa [initObserver, observeLoop] using ih
    · simp [initObserver, observeLoop]

-- ### C6

/-- C6: whenever the embedded metadata blob is absent or unparsable,
`getCourseData` returns `null` without throwing and the composed header
degrades to the fallback containing only the section/lecture titles
derived from visible text. -/
theorem c6_fallback_on_bad_blob (p : Page) (st : Settings)
    (h : p.dataModuleArgs = none ∨ p.dataModuleArgs = some (Except.error ())) :
    getCourseData p = none ∧
    headerLines p st = fallbackHeader p st ∧
    (st.includeSectionLecture = true →
      headerLines p st =
        ["# " ++ (sectionLectureTitles p).1, "## " ++ ((sectionLectureTitles p).2 ++ "\n")]) ∧
    (st.includeSectionLecture = false → headerLines p st = []) := by
  have hg : getCourseData p = none := by
    rcases h with h | h <;> simp [getCourseData, h]
  refine ⟨hg, by simp [headerLines, hg], ?_, ?_⟩
  · intro hf
    simp [headerLines, hg, fallbackHeader, hf]
  · intro hf
    simp [headerLines, hg, fallbackHeader, hf]

def pW6 : Page :=
  { emptyPage with
      dataModuleArgs := some (Except.error ())
      lectureTitleEl := some (" My Lecture ") }

theorem c6_witness :
    headerLines pW6 DEFAULT_SETTINGS =
      ["# " ++ (sectionLectureTitles pW6).1, "## " ++ ((sectionLectureTitles pW6).2 ++ "\n")] :=
  (c6_fallback_on_bad_blob pW6 DEFAULT_SETTINGS (Or.inr rfl)).2.2.1 rfl

-- ### C7

/-- C7: saving any preference record and loading it back yields the same
record, and loading with a completely absent stored value yields exactly
the default record. -/
theorem c7_roundtrip_and_default :
    (∀ s : Settings, loadSettings (some (saveSettingsValue s)) = s) ∧
    loadSettings none = DEFAULT_SETTINGS :=
  ⟨fun s => rfl, rfl⟩

-- ### C8

/-- C8: the transcript extraction returns the trimmed text of the
qualifying line elements preserving document order (it is a sublist of the
trimmed text of all elements in document order), returns `[]` without
failing when nothing qualifies, and on the three-line example returns
exactly the trimmed lines in order. -/
theorem c8_extractTranscript_spec :
    (∀ panel : TranscriptPanel,
      (extractTranscript panel).Sublist (panel.elems.map (fun e => jsTrim e.textContent))) ∧
    (∀ panel : TranscriptPanel, cueTextElements panel = [] → extractTranscript panel = []) ∧
    extractTranscript (TranscriptPanel.mk
      [CueElem.mk ("span") (some ("cue-text")) (" Hello "),
       CueElem.mk ("span") (some ("cue-text")) ("World"),
       CueElem.mk ("span") (some ("cue-text")) (" foo bar ")]) =
      ["Hello", "World", "foo bar"] := by
  refine ⟨?_, ?_, by decide⟩
  · intro panel
    unfold extractTranscript cueTextElements
    exact List.Sublist.map _ (List.filter_sublist _)
  · intro panel h
    unfold extractTranscript
    rw [h]
    rfl

theorem c8_witness : extractTranscript (TranscriptPanel.mk []) = [] :=
  c8_extractTranscript_spec.2.1 (TranscriptPanel.mk []) rfl

-- ### C9

theorem injectUI_count_zero (e : Doc) (h0 : e.ids.count ("utc-ui-container") = 0) :
    (injectUI e).ids.count ("utc-ui-container") = 1 := by
  have hnm : ("utc-ui-container") ∉ e.ids := List.count_eq_zero.mp h0
  have hc : ¬ (e.ids.contains ("utc-ui-container") = true) := by
    simp [List.contains]
    intro hx
    exact absurd hx hnm
  unfold injectUI
  rw [if_neg hc]
  simpa [List.count_cons_self] using h0

theorem injectUI_count_one (e : Doc) (h : e.ids.count ("utc-ui-container") = 1) :
    (injectUI e).ids.count ("utc-ui-container") = 1 := by
  have hmem : ("utc-ui-container") ∈ e.ids := by
    rw [← List.count_pos_iff, h]
    norm_num
  have hc : e.ids.contains ("utc-ui-container") = true := by
    simp [List.contains]
    exact hmem
  unfold injectUI
  rw [if_pos hc]
  exact h

theorem injectUI_iterate_one (m : Nat) (e : Doc)
    (h : e.ids.count ("utc-ui-container") = 1) :
    ((injectUI)^[m] e).ids.count ("utc-ui-container") = 1 := by
  induction m generalizing e with
  | zero => simpa using h
  | succ k ih =>
    rw [Function.iterate_succ_apply]
    exact ih _ (injectUI_count_one e h)

/-- C9: starting from any document without the injected control, applying
the injection step any positive number of times leaves exactly one
injected control in the document. -/
theorem c9_inject_idempotent (e : Doc) (n : Nat)
    (h0 : e.ids.count ("utc-ui-container") = 0) (hn : 1 ≤ n) :
    ((injectUI)^[n] e).ids.count ("utc-ui-container") = 1 := by
  obtain ⟨m, rfl⟩ : ∃ m, n = m + 1 := ⟨n - 1, by omega⟩
  rw [Function.iterate_succ_apply]
  exact injectUI_iterate_one m (injectUI e) (injectUI_count_zero e h0)

theorem c9_witness : ((injectUI)^[2] (Doc.mk [])).ids.count ("utc-ui-container") = 1 :=
  c9_inject_idempotent (Doc.mk []) 2 rfl (by decide)

-- ### C10

/-- C10: when the blob parses but an exception is raised while building the
metadata header, the whole accumulated header — including fields already
found — is discarded, and the copied text consists of the transcript lines
alone with no header lines at all. -/
theorem c10_header_discarded_on_throw (p : Page) (st : Settings) (d : CourseData)
    (panel : TranscriptPanel)
    (hcd : getCourseData p = some d)
    (herr : buildHeaderMain p st d = Except.error ())
    (hp : p.transcriptPanel = some panel)
    (hne : cueTextElements panel ≠ []) :
    headerLines p st = [] ∧
    handleCopyClick p st = CopyResult.wrote
      (joinSep ("\n") ((cueTextElements panel).map (fun e => jsTrim e.textContent))) := by
  have hh : headerLines p st = [] := by
    simp [headerLines, hcd, herr]
  refine ⟨hh, ?_⟩
  unfold handleCopyClick
  simp only [hp]
  rw [if_neg (fun hzero => hne (List.length_eq_zero.mp hzero))]
  rw [hh]
  rfl

/-- A blob whose `rating` field holds a truthy non-number, so that
`rating.toFixed(2)` throws inside the `try` block. -/
def dW10 : CourseData :=
  { instructorInfo := none
    courseLeadData := some
      { rating := some (JsNum.other ("oops")), num_reviews := none,
        content_info_short := none, last_update_date := none,
        captionedLanguages := none } }

def pW10 : Page :=
  { emptyPage with
      dataModuleArgs := some (Except.ok dW10)
      courseTitleEl := some ("My Course")
      transcriptPanel := some onePanel }

theorem c10_witness :
    headerLines pW10 DEFAULT_SETTINGS = [] ∧
    handleCopyClick pW10 DEFAULT_SETTINGS = CopyResult.wrote
      (joinSep ("\n") ((cueTextElements onePanel).map (fun e => jsTrim e.textContent))) :=
  c10_header_discarded_on_throw pW10 DEFAULT_SETTINGS dW10 onePanel rfl rfl rfl (by decide)
